import Mathlib

/-!
Verification of the CivicTrack report lifecycle core: a shallow embedding of
the status transition engine, priority calculator, triage, assignment and
survey operations of `src/apps/api/src/modules/reports/report.controller.ts`,
together with proofs of the specified properties.

Conventions of the embedding:
* JavaScript numbers are modelled as rationals (`ℚ`); a request-body field
  that may be absent (or fail a `typeof x !== "number"` check) is an
  `Option ℚ`.
* HTTP error responses are `ApiError` values carrying the status code and
  message used by the source; handler results are `Except ApiError _`.
* Mongoose documents are plain structures; `undefined` fields are `none`.
  The monotone wall clock is a `Nat` parameter `now`.
* The source's field names `at` and `by` are Lean keywords and are rendered
  `atTime` and `byUser`.
-/

namespace CivicTrack

/-- The report statuses, from `reportStatuses` in report.controller.ts. -/
inductive ReportStatus where
  | RECEIVED
  | VERIFIED
  | SCHEDULED
  | IN_PROGRESS
  | RESOLVED
  | CLOSED
  | REOPENED
  deriving DecidableEq, Repr

/-- The fixed transition graph, from `transitionMap` in report.controller.ts. -/
def transitionMap : ReportStatus → List ReportStatus
  | .RECEIVED => [.VERIFIED]
  | .VERIFIED => [.SCHEDULED]
  | .SCHEDULED => [.IN_PROGRESS]
  | .IN_PROGRESS => [.RESOLVED]
  | .RESOLVED => [.CLOSED]
  | .CLOSED => [.REOPENED]
  | .REOPENED => [.IN_PROGRESS, .VERIFIED]

/-- The priority tiers, from `priorityLevels` in report.controller.ts. -/
inductive PriorityLevel where
  | LOW
  | MEDIUM
  | HIGH
  | CRITICAL
  deriving DecidableEq, Repr

/-- Severity rank of a priority tier, used to state monotonicity. -/
def priorityRank : PriorityLevel → Nat
  | .LOW => 0
  | .MEDIUM => 1
  | .HIGH => 2
  | .CRITICAL => 3

/-- The priority calculator, from `computePriority` in report.controller.ts:
`score = impact + urgency`; `score <= 4` LOW, `<= 6` MEDIUM, `<= 8` HIGH,
else CRITICAL. -/
def computePriority (impact urgency : ℚ) : PriorityLevel :=
  if impact + urgency ≤ 4 then .LOW
  else if impact + urgency ≤ 6 then .MEDIUM
  else if impact + urgency ≤ 8 then .HIGH
  else .CRITICAL

/-- Restriction of the score-to-tier table to natural-number scores; bridge
used to reason about `computePriority` on integer inputs. -/
def natTier (score : Nat) : PriorityLevel :=
  if score ≤ 4 then .LOW
  else if score ≤ 6 then .MEDIUM
  else if score ≤ 8 then .HIGH
  else .CRITICAL

/-- An HTTP error response: `res.status(code).json(\x7b error: message \x7d)`. -/
structure ApiError where
  code : Nat
  message : String
  deriving DecidableEq, Repr

/-- One entry of a report's `statusHistory` (source fields `at` / `by`). -/
structure StatusHistoryEntry where
  status : ReportStatus
  atTime : Nat
  byUser : Option String
  note : Option String
  deriving DecidableEq, Repr

/-- The Report document, following the schema in report.model.ts (ids are
strings; timestamps are `Nat`; `location` keeps the `[lng, lat]` pair). -/
structure Report where
  category : String
  description : String
  location : ℚ × ℚ
  addressText : Option String
  district : Option String
  photoUrls : List String
  status : ReportStatus
  statusHistory : List StatusHistoryEntry
  createdBy : Option String
  assignedTo : Option String
  assignedAt : Option Nat
  assignedBy : Option String
  scheduledAt : Option Nat
  slaTargetAt : Option Nat
  slaBreachedAt : Option Nat
  impact : Option ℚ
  urgency : Option ℚ
  priority : Option PriorityLevel
  priorityOverride : Option PriorityLevel
  priorityUpdatedAt : Option Nat
  priorityUpdatedBy : Option String
  deriving DecidableEq, Repr

/-- JavaScript `s.trim()`: whitespace stripped from both ends (modelled
over the character list so that it evaluates on literals). -/
def jsTrim (s : String) : String :=
  String.mk
    ((s.data.dropWhile Char.isWhitespace).reverse.dropWhile
      Char.isWhitespace).reverse

/-- The source idiom `value?.trim() || undefined`: an absent or
whitespace-only string becomes `undefined`, otherwise the trimmed string. -/
def trimToOption (value : Option String) : Option String :=
  match value with
  | none => none
  | some s => if jsTrim s = "" then none else some (jsTrim s)

/-- The `PATCH /reports/:id/status` handler body (`updateReportStatus` in
report.controller.ts) after the report has been fetched: the note rule for
RESOLVED/CLOSED is checked first, then the transition graph; on success the
status is set and one history entry is appended. -/
def updateReportStatus (report : Report) (status : ReportStatus)
    (note : Option String) (userId : Option String) (now : Nat) :
    Except ApiError Report :=
  if (status = .RESOLVED ∨ status = .CLOSED) ∧ trimToOption note = none then
    .error ⟨400, "La justificacion es requerida"⟩
  else
    if status ∈ transitionMap report.status then
      .ok { report with
        status := status
        statusHistory := report.statusHistory ++
          [{ status := status, atTime := now, byUser := userId,
             note := trimToOption note }] }
    else
      .error ⟨400, "Transicion no permitida"⟩

/-- The stored state after a handler call: the saved document on success,
the untouched input document on any error (every error return in the source
precedes the mutation and `save()`). -/
def persistedReport (report : Report) (result : Except ApiError Report) :
    Report :=
  match result with
  | .ok r => r
  | .error _ => report

/-- The document constructed by `Report.create` in `createReport`
(report.controller.ts): status RECEIVED with one synthetic history entry. -/
def createReport (category description : String) (lng lat : ℚ)
    (addressText district createdBy : Option String) (now : Nat) : Report :=
  { category := category
    description := jsTrim description
    location := (lng, lat)
    addressText := addressText
    district := district
    photoUrls := []
    status := .RECEIVED
    statusHistory := [{ status := .RECEIVED, atTime := now,
                        byUser := createdBy, note := none }]
    createdBy := createdBy
    assignedTo := none, assignedAt := none, assignedBy := none
    scheduledAt := none, slaTargetAt := none, slaBreachedAt := none
    impact := none, urgency := none
    priority := none, priorityOverride := none
    priorityUpdatedAt := none, priorityUpdatedBy := none }

/-- The invariant of claim C2: the current status equals the status of the
most recent history entry. -/
def statusMatchesHistory (report : Report) : Prop :=
  report.statusHistory.getLast?.map StatusHistoryEntry.status =
    some report.status

/-- The `priorityOverride` field of a triage request body: absent
(`undefined`), explicit `null`, one of the four tiers, or any other value
(rejected by the `priorityLevels.includes` check). -/
inductive OverrideInput where
  | undef
  | null
  | level (value : PriorityLevel)
  | invalid (raw : String)
  deriving DecidableEq, Repr

/-- The check `priorityOverride !== undefined && priorityOverride !== null
&& !priorityLevels.includes(priorityOverride)` in `triageReport`: only a
value outside the four tiers is rejected. -/
def overrideInputValid : OverrideInput → Bool
  | .invalid _ => false
  | _ => true

/-- The assignment `report.priorityOverride = priorityOverride === null ?
undefined : priorityOverride` in `triageReport`: `null` and `undefined`
both store `undefined`; a tier stores that tier. -/
def overrideStored : OverrideInput → Option PriorityLevel
  | .level v => some v
  | _ => none

/-- The `PATCH /reports/:id/triage` handler body (`triageReport` in
report.controller.ts) after the report has been fetched: validates impact,
urgency and override in that order, then recomputes and stores the
priority, stores or clears the override, and stamps the triage metadata. -/
def triageReport (report : Report) (impact urgency : Option ℚ)
    (priorityOverride : OverrideInput) (userId : Option String) (now : Nat) :
    Except ApiError Report :=
  match impact with
  | none => .error ⟨400, "Impacto invalido"⟩
  | some i =>
    if i < 1 ∨ 5 < i then .error ⟨400, "Impacto invalido"⟩
    else
      match urgency with
      | none => .error ⟨400, "Urgencia invalida"⟩
      | some u =>
        if u < 1 ∨ 5 < u then .error ⟨400, "Urgencia invalida"⟩
        else if overrideInputValid priorityOverride = false then
          .error ⟨400, "priorityOverride invalido"⟩
        else
          .ok { report with
            impact := some i
            urgency := some u
            priority := some (computePriority i u)
            priorityOverride := overrideStored priorityOverride
            priorityUpdatedAt := some now
            priorityUpdatedBy := userId }

/-- The `effectivePriority` field exposed by `formatReportDetail`,
`listAdminReports` and the `triageReport` response:
`report.priorityOverride ?? report.priority`. -/
def effectivePriority (report : Report) : Option PriorityLevel :=
  match report.priorityOverride with
  | some p => some p
  | none => report.priority

/-- The projection of a User document used by `assignReport`
(`User.findById(assigneeId).select("email role isActive")`). -/
structure UserRec where
  email : String
  role : String
  isActive : Bool
  deriving DecidableEq, Repr

/-- The `assigneeId` field of an assignment request body: absent
(`undefined`), explicit `null`, or a string. -/
inductive AssigneeInput where
  | undef
  | null
  | str (value : String)
  deriving DecidableEq, Repr

/-- The `PATCH /reports/:id/assignment` handler body (`assignReport` in
report.controller.ts) after the report has been fetched. `users` models the
User collection lookup and `isValidObjectId` the mongoose ObjectId check
(both external to this module). A truthy `assigneeId` must name an existing
active user and sets the assignment triple; `null` or the empty string
clears it. -/
def assignReport (report : Report) (assigneeId : AssigneeInput)
    (users : String → Option UserRec) (isValidObjectId : String → Bool)
    (userId : Option String) (now : Nat) : Except ApiError Report :=
  match assigneeId with
  | .undef => .error ⟨400, "assigneeId es requerido"⟩
  | .null =>
    .ok { report with assignedTo := none, assignedAt := none,
                      assignedBy := none }
  | .str s =>
    if s ≠ "" ∧ isValidObjectId s = false then
      .error ⟨400, "assigneeId invalido"⟩
    else if s = "" then
      .ok { report with assignedTo := none, assignedAt := none,
                        assignedBy := none }
    else
      match users s with
      | none => .error ⟨400, "Usuario no valido"⟩
      | some u =>
        if u.isActive = false then .error ⟨400, "Usuario no valido"⟩
        else
          .ok { report with assignedTo := some s, assignedAt := some now,
                            assignedBy := userId }

/-- The assignment triple written by `assignReport`: `assignedTo`,
`assignedAt` and `assignedBy` set or cleared together. -/
def assignmentSet (report : Report) (assignee : Option String)
    (assignedAt : Option Nat) (assignedBy : Option String) : Report :=
  { report with
      assignedTo := assignee
      assignedAt := assignedAt
      assignedBy := assignedBy }

/-- A ReportSurvey document, following the schema in the survey model
(reportId, token, email snapshot, optional rating, comment and
submission timestamp). -/
structure Survey where
  reportId : String
  token : String
  email : String
  rating : Option ℚ
  comment : Option String
  submittedAt : Option Nat
  deriving DecidableEq, Repr

/-- The survey record created by `ensureSurveyForReport` when none exists
(`ReportSurvey.create` with a fresh token and the reporter email). -/
def newSurvey (reportId freshToken email : String) : Survey :=
  { reportId := reportId
    token := freshToken
    email := email
    rating := none
    comment := none
    submittedAt := none }

/-- The survey dispatcher core (`ensureSurveyForReport` in
report.controller.ts) over the survey collection: no resolvable reporter
email yields nothing; an existing submitted survey yields nothing; an
existing unsubmitted survey is reused; otherwise a survey with the fresh
token is created. Returns the updated collection and the survey to invite
(`null` return in the source). -/
def ensureSurveyForReport (surveys : List Survey)
    (reporterEmail : Option String) (reportId : String)
    (freshToken : String) : List Survey × Option Survey :=
  match reporterEmail with
  | none => (surveys, none)
  | some email =>
    match surveys.find? (fun s => s.reportId == reportId) with
    | some s =>
      if s.submittedAt.isSome then (surveys, none) else (surveys, some s)
    | none =>
      (surveys ++ [newSurvey reportId freshToken email],
        some (newSurvey reportId freshToken email))

/-- The mail side of the dispatcher (`sendSurveyInvitation` in
report.controller.ts): when `ensureSurveyForReport` yields a survey, an
invitation is sent to that survey's email; otherwise nothing is sent. -/
def sendSurveyInvitation (surveys : List Survey)
    (reporterEmail : Option String) (reportId : String)
    (freshToken : String) : List Survey × Option String :=
  match ensureSurveyForReport surveys reporterEmail reportId freshToken with
  | (surveys2, none) => (surveys2, none)
  | (surveys2, some s) => (surveys2, some s.email)

/-- Outcome of a status update including the survey side effect: the saved
report, the survey collection afterwards, and the email an invitation was
sent to (if any). -/
structure StatusUpdateOutcome where
  report : Report
  surveys : List Survey
  invitationEmail : Option String
  deriving DecidableEq, Repr

/-- The `updateReportStatus` handler together with its survey side effect:
`if (status === "CLOSED") void sendSurveyInvitation(report)` runs only on a
successful transition whose target is CLOSED. -/
def updateReportStatusWithSurvey (report : Report) (surveys : List Survey)
    (reporterEmail : Option String) (freshToken : String) (reportId : String)
    (status : ReportStatus) (note : Option String) (userId : Option String)
    (now : Nat) : Except ApiError StatusUpdateOutcome :=
  match updateReportStatus report status note userId now with
  | .error e => .error e
  | .ok r =>
    if status = .CLOSED then
      let dispatched :=
        sendSurveyInvitation surveys reporterEmail reportId freshToken
      .ok { report := r, surveys := dispatched.1,
            invitationEmail := dispatched.2 }
    else
      .ok { report := r, surveys := surveys, invitationEmail := none }

/-- The check `comment && comment.length > SURVEY_COMMENT_MAX` in
`submitSurvey` (`SURVEY_COMMENT_MAX = 500`). -/
def commentTooLong (comment : Option String) : Bool :=
  match comment with
  | none => false
  | some s => s.length > 500

/-- The survey record written by a successful `submitSurvey` call:
rating, trimmed comment (`comment?.trim() || undefined`) and the
submission timestamp. -/
def submittedVersion (s : Survey) (rating : ℚ) (comment : Option String)
    (now : Nat) : Survey :=
  { s with
      rating := some rating
      comment := trimToOption comment
      submittedAt := some now }

/-- Persisting `survey.save()` in `submitSurvey`: the first survey matching
the token is replaced by its submitted version. -/
def saveSubmittedSurvey : List Survey → String → ℚ → Option String → Nat →
    List Survey
  | [], _, _, _, _ => []
  | s :: rest, token, rating, comment, now =>
    if s.token == token then
      submittedVersion s rating comment now :: rest
    else
      s :: saveSubmittedSurvey rest token rating comment now

/-- The `POST /reports/survey/:token` handler (`submitSurvey` in
report.controller.ts) over the survey collection: token format, rating and
comment are validated first; then the token is looked up (404 when
unknown, 409 when already submitted); otherwise rating, trimmed comment
and `submittedAt` are stored. -/
def submitSurvey (surveys : List Survey) (token : String)
    (rating : Option ℚ) (comment : Option String) (now : Nat) :
    Except ApiError (List Survey) :=
  if (jsTrim token).length < 10 then .error ⟨400, "token invalido"⟩
  else
    match rating with
    | none => .error ⟨400, "rating invalido"⟩
    | some x =>
      if x < 1 ∨ 5 < x then .error ⟨400, "rating invalido"⟩
      else if commentTooLong comment then
        .error ⟨400, "Comentario demasiado largo"⟩
      else
        match surveys.find? (fun s => s.token == token) with
        | none => .error ⟨404, "Encuesta no encontrada"⟩
        | some s =>
          if s.submittedAt.isSome then
            .error ⟨409, "Encuesta ya respondida"⟩
          else
            .ok (saveSubmittedSurvey surveys token x comment now)

/-- The stored survey collection after a `submitSurvey` call: updated on
success, untouched on any error. -/
def persistedSurveys (surveys : List Survey)
    (result : Except ApiError (List Survey)) : List Survey :=
  match result with
  | .ok l => l
  | .error _ => surveys

/-- Number of survey records for a given report. -/
def surveyCountFor (reportId : String) (surveys : List Survey) : Nat :=
  (surveys.filter (fun s => s.reportId == reportId)).length

/-- The report produced by a successful `triageReport` call: the mutation
block of the handler as a function of the validated inputs. -/
def triagedWith (report : Report) (i u : ℚ) (ov : Option PriorityLevel)
    (userId : Option String) (now : Nat) : Report :=
  { report with
      impact := some i
      urgency := some u
      priority := some (computePriority i u)
      priorityOverride := ov
      priorityUpdatedAt := some now
      priorityUpdatedBy := userId }

/-- A concrete report used to instantiate proved theorems. -/
def sampleReport : Report :=
  { category := "BACHE"
    description := "Bache profundo en la esquina"
    location := (-58, -34)
    addressText := none
    district := none
    photoUrls := []
    status := .RECEIVED
    statusHistory := [{ status := .RECEIVED, atTime := 0,
                        byUser := some "u1", note := none }]
    createdBy := some "u1"
    assignedTo := none, assignedAt := none, assignedBy := none
    scheduledAt := none, slaTargetAt := none, slaBreachedAt := none
    impact := none, urgency := none
    priority := none, priorityOverride := none
    priorityUpdatedAt := none, priorityUpdatedBy := none }

/-- A concrete report carrying a computed priority and an override. -/
def sampleOverridden : Report :=
  { sampleReport with
      priority := some .HIGH
      priorityOverride := some .LOW }

/-- A user table holding one active account whose role is CITIZEN. -/
def citizenUsers : String → Option UserRec := fun s =>
  if s = "cit1" then
    some { email := "cit@example.com", role := "CITIZEN", isActive := true }
  else none

/-- A user table holding one deactivated account. -/
def inactiveUsers : String → Option UserRec := fun s =>
  if s = "old1" then
    some { email := "old@example.com", role := "OPERATOR", isActive := false }
  else none

/-- A concrete unsubmitted survey. -/
def freshSampleSurvey : Survey :=
  { reportId := "rep1", token := "tok1234567890", email := "c@example.com",
    rating := none, comment := none, submittedAt := none }

/-- The survey obtained by submitting `freshSampleSurvey` with rating 4 at
time 10. -/
def submittedSampleSurvey : Survey :=
  { freshSampleSurvey with rating := some 4, comment := none,
                           submittedAt := some 10 }

/-- No status appears in its own allowed-next list. -/
theorem self_not_in_transitionMap (s : ReportStatus) :
    s ∉ transitionMap s := by
  cases s <;> decide

/-- C1: for every report and requested target status, `updateReportStatus`
succeeds only when the target is in the transition graph for the current
status; any target not listed fails, and in particular a target equal to
the current status always fails. -/
theorem claim1_transition_graph_gate (report : Report)
    (status : ReportStatus) (note userId : Option String) (now : Nat) :
    (∀ r', updateReportStatus report status note userId now = .ok r' →
      status ∈ transitionMap report.status) ∧
    (status ∉ transitionMap report.status →
      ∃ e, updateReportStatus report status note userId now = .error e) ∧
    (status = report.status →
      ∃ e, updateReportStatus report status note userId now = .error e) := by
  have main : ∀ hm : status ∉ transitionMap report.status,
      ∃ e, updateReportStatus report status note userId now = .error e := by
    intro hm
    unfold updateReportStatus
    by_cases hn : (status = .RESOLVED ∨ status = .CLOSED) ∧
        trimToOption note = none
    · rw [if_pos hn]
      exact ⟨_, rfl⟩
    · rw [if_neg hn, if_neg hm]
      exact ⟨_, rfl⟩
  refine ⟨?_, main, ?_⟩
  · intro r' h
    unfold updateReportStatus at h
    by_cases hn : (status = .RESOLVED ∨ status = .CLOSED) ∧
        trimToOption note = none
    · rw [if_pos hn] at h
      exact absurd h (by simp)
    · rw [if_neg hn] at h
      by_cases hm : status ∈ transitionMap report.status
      · exact hm
      · rw [if_neg hm] at h
        exact absurd h (by simp)
  · intro hself
    refine main ?_
    rw [hself]
    exact self_not_in_transitionMap report.status

/-- Witness instantiating claim C1: from RECEIVED, a self-transition to
RECEIVED is rejected. -/
theorem claim1_witness :
    ∃ e, updateReportStatus sampleReport .RECEIVED none none 1 =
      .error e :=
  (claim1_transition_graph_gate sampleReport .RECEIVED none none 1).2.2 rfl

/-- C2: after creation (one synthetic RECEIVED history entry) and after
every successful status transition, the current status equals the status of
the last history entry. -/
theorem claim2_status_matches_history :
    (∀ category description lng lat addressText district createdBy now,
      statusMatchesHistory
        (createReport category description lng lat addressText district
          createdBy now)) ∧
    (∀ report status note userId now r',
      updateReportStatus report status note userId now = .ok r' →
      statusMatchesHistory r') := by
  constructor
  · intro category description lng lat addressText district createdBy now
    simp [createReport, statusMatchesHistory]
  · intro report status note userId now r' h
    unfold updateReportStatus at h
    by_cases hn : (status = .RESOLVED ∨ status = .CLOSED) ∧
        trimToOption note = none
    · rw [if_pos hn] at h
      exact absurd h (by simp)
    · rw [if_neg hn] at h
      by_cases hm : status ∈ transitionMap report.status
      · rw [if_pos hm] at h
        cases h
        simp [statusMatchesHistory, List.getLast?_concat]
      · rw [if_neg hm] at h
        exact absurd h (by simp)

/-- Witness instantiating claim C2: creation and a successful
RECEIVED→VERIFIED transition both satisfy the invariant. -/
theorem claim2_witness :
    statusMatchesHistory
      (createReport "BACHE" "Bache profundo en la esquina" (-58) (-34)
        none none (some "u1") 0) ∧
    statusMatchesHistory
      { sampleReport with
        status := .VERIFIED
        statusHistory := sampleReport.statusHistory ++
          [{ status := .VERIFIED, atTime := 3, byUser := some "op1",
             note := none }] } :=
  ⟨claim2_status_matches_history.1 "BACHE" "Bache profundo en la esquina"
      (-58) (-34) none none (some "u1") 0,
    claim2_status_matches_history.2 sampleReport .VERIFIED none
      (some "op1") 3 _ rfl⟩

/-- C3: a transition request targeting RESOLVED or CLOSED with an absent or
blank note fails with a validation error before any state change, and the
note rule is required in addition to the transition-graph rule. -/
theorem claim3_note_required (report : Report) (status : ReportStatus)
    (note userId : Option String) (now : Nat) :
    ((status = .RESOLVED ∨ status = .CLOSED) → trimToOption note = none →
      updateReportStatus report status note userId now =
        .error ⟨400, "La justificacion es requerida"⟩ ∧
      persistedReport report
        (updateReportStatus report status note userId now) = report) ∧
    (∀ r', updateReportStatus report status note userId now = .ok r' →
      status ∈ transitionMap report.status ∧
      ((status = .RESOLVED ∨ status = .CLOSED) →
        trimToOption note ≠ none)) := by
  constructor
  · intro hs hnote
    have herr : updateReportStatus report status note userId now =
        .error ⟨400, "La justificacion es requerida"⟩ := by
      unfold updateReportStatus
      rw [if_pos ⟨hs, hnote⟩]
    exact ⟨herr, by rw [herr]; rfl⟩
  · intro r' h
    unfold updateReportStatus at h
    by_cases hn : (status = .RESOLVED ∨ status = .CLOSED) ∧
        trimToOption note = none
    · rw [if_pos hn] at h
      exact absurd h (by simp)
    · by_cases hm : status ∈ transitionMap report.status
      · refine ⟨hm, fun hs hnote => hn ⟨hs, hnote⟩⟩
      · rw [if_neg hn, if_neg hm] at h
        exact absurd h (by simp)

/-- Witness instantiating claim C3: targeting RESOLVED with no note fails
and leaves the report unchanged. -/
theorem claim3_witness :
    updateReportStatus sampleReport .RESOLVED none none 2 =
      .error ⟨400, "La justificacion es requerida"⟩ ∧
    persistedReport sampleReport
      (updateReportStatus sampleReport .RESOLVED none none 2) =
      sampleReport :=
  (claim3_note_required sampleReport .RESOLVED none none 2).1
    (Or.inl rfl) rfl

/-- Bridge: on natural-number inputs the priority calculator is the
score-to-tier table evaluated at the natural-number sum. -/
theorem computePriority_natCast (i u : ℕ) :
    computePriority i u = natTier (i + u) := by
  unfold computePriority natTier
  have h4 : ((i : ℚ) + u ≤ 4) ↔ i + u ≤ 4 := by
    constructor <;> intro h <;> exact_mod_cast h
  have h6 : ((i : ℚ) + u ≤ 6) ↔ i + u ≤ 6 := by
    constructor <;> intro h <;> exact_mod_cast h
  have h8 : ((i : ℚ) + u ≤ 8) ↔ i + u ≤ 8 := by
    constructor <;> intro h <;> exact_mod_cast h
  simp only [h4, h6, h8]

/-- The score-to-tier table is monotonically non-decreasing. -/
theorem natTier_rank_mono {s t : ℕ} (h : s ≤ t) :
    priorityRank (natTier s) ≤ priorityRank (natTier t) := by
  unfold natTier
  split_ifs <;> simp only [priorityRank] <;> omega

/-- C4: on integer inputs in [1,5]×[1,5], `computePriority` maps the sums
2–4 to LOW, 5–6 to MEDIUM, 7–8 to HIGH and 9–10 to CRITICAL, and is
monotonically non-decreasing in the sum. -/
theorem claim4_compute_priority (i u : ℕ)
    (hi1 : 1 ≤ i) (hi5 : i ≤ 5) (hu1 : 1 ≤ u) (hu5 : u ≤ 5) :
    ((i + u ≤ 4 → computePriority i u = .LOW) ∧
     (5 ≤ i + u → i + u ≤ 6 → computePriority i u = .MEDIUM) ∧
     (7 ≤ i + u → i + u ≤ 8 → computePriority i u = .HIGH) ∧
     (9 ≤ i + u → computePriority i u = .CRITICAL)) ∧
    (∀ i' u' : ℕ, 1 ≤ i' → i' ≤ 5 → 1 ≤ u' → u' ≤ 5 → i + u ≤ i' + u' →
      priorityRank (computePriority i u) ≤
        priorityRank (computePriority i' u')) := by
  simp only [computePriority_natCast]
  refine ⟨⟨?_, ?_, ?_, ?_⟩, ?_⟩
  · intro h
    unfold natTier
    rw [if_pos h]
  · intro h5 h6
    unfold natTier
    rw [if_neg (by omega), if_pos h6]
  · intro h7 h8
    unfold natTier
    rw [if_neg (by omega), if_neg (by omega), if_pos h8]
  · intro h9
    unfold natTier
    rw [if_neg (by omega), if_neg (by omega), if_neg (by omega)]
  · intro i' u' _ _ _ _ hle
    exact natTier_rank_mono hle

/-- Witness instantiating claim C4: (5,5) is CRITICAL and ranks at least
(1,1). -/
theorem claim4_witness :
    computePriority ((5 : ℕ) : ℚ) ((5 : ℕ) : ℚ) = .CRITICAL ∧
    priorityRank (computePriority ((1 : ℕ) : ℚ) ((1 : ℕ) : ℚ)) ≤
      priorityRank (computePriority ((5 : ℕ) : ℚ) ((5 : ℕ) : ℚ)) :=
  ⟨(claim4_compute_priority 5 5 (by omega) (by omega) (by omega)
      (by omega)).1.2.2.2 (by omega),
    (claim4_compute_priority 1 1 (by omega) (by omega) (by omega)
      (by omega)).2 5 5 (by omega) (by omega) (by omega) (by omega)
      (by omega)⟩

/-- C5: the effective priority equals the override when one is stored and
the computed priority otherwise; the triage scenario (5,5) → CRITICAL,
override LOW → LOW, override cleared → CRITICAL holds for every starting
report. -/
theorem claim5_effective_priority :
    (∀ r p, r.priorityOverride = some p → effectivePriority r = some p) ∧
    (∀ r, r.priorityOverride = none →
      effectivePriority r = r.priority) ∧
    (∀ r0 userId now, ∃ r1 r2 r3,
      triageReport r0 (some 5) (some 5) .undef userId now = .ok r1 ∧
      effectivePriority r1 = some .CRITICAL ∧
      triageReport r1 (some 5) (some 5) (.level .LOW) userId now =
        .ok r2 ∧
      effectivePriority r2 = some .LOW ∧
      triageReport r2 (some 5) (some 5) .null userId now = .ok r3 ∧
      effectivePriority r3 = some .CRITICAL) := by
  refine ⟨?_, ?_, ?_⟩
  · intro r p h
    simp [effectivePriority, h]
  · intro r h
    simp [effectivePriority, h]
  · intro r0 userId now
    refine ⟨triagedWith r0 5 5 none userId now,
      triagedWith r0 5 5 (some .LOW) userId now,
      triagedWith r0 5 5 none userId now, ?_, ?_, ?_, ?_, ?_, ?_⟩ <;>
    norm_num [triageReport, triagedWith, overrideInputValid,
      overrideStored, effectivePriority, computePriority]

/-- Witness instantiating claim C5: a stored override wins, and with the
override cleared the computed priority is exposed. -/
theorem claim5_witness :
    effectivePriority (triagedWith sampleReport 5 5 (some .LOW) none 1) =
      some .LOW ∧
    effectivePriority (triagedWith sampleReport 5 5 none none 1) =
      (triagedWith sampleReport 5 5 none none 1).priority :=
  ⟨claim5_effective_priority.1 _ _ rfl,
    claim5_effective_priority.2.1 _ rfl⟩

/-- C10: a triage request that omits the `priorityOverride` field behaves
exactly like one passing explicit null: the stored override is cleared and
the effective priority becomes the freshly computed priority. -/
theorem claim10_omitted_override_clears (report : Report)
    (impact urgency : Option ℚ) (userId : Option String) (now : Nat) :
    triageReport report impact urgency .undef userId now =
      triageReport report impact urgency .null userId now ∧
    (∀ r', triageReport report impact urgency .undef userId now =
        .ok r' →
      r'.priorityOverride = none ∧
      effectivePriority r' = r'.priority) := by
  constructor
  · rfl
  · intro r' h
    rcases impact with _ | i
    · exact absurd h (by simp [triageReport])
    · simp only [triageReport] at h
      by_cases hi : i < 1 ∨ 5 < i
      · rw [if_pos hi] at h
        exact absurd h (by simp)
      · rw [if_neg hi] at h
        rcases urgency with _ | u
        · exact absurd h (by simp)
        · simp only [] at h
          by_cases hu : u < 1 ∨ 5 < u
          · rw [if_pos hu] at h
            exact absurd h (by simp)
          · rw [if_neg hu] at h
            simp only [overrideInputValid, Bool.true_eq_false, if_false,
              reduceIte, Except.ok.injEq] at h
            subst h
            simp [overrideStored, effectivePriority]

/-- Witness instantiating claim C10: starting from a report carrying an
override, a triage call omitting the field equals the explicit-null call
and clears the override. -/
theorem claim10_witness :
    triageReport sampleOverridden (some 3) (some 4) .undef none 2 =
      triageReport sampleOverridden (some 3) (some 4) .null none 2 ∧
    (triagedWith sampleOverridden 3 4 none none 2).priorityOverride =
      none :=
  ⟨(claim10_omitted_override_clears sampleOverridden (some 3) (some 4)
      none 2).1,
    ((claim10_omitted_override_clears sampleOverridden (some 3) (some 4)
      none 2).2 (triagedWith sampleOverridden 3 4 none none 2)
      (by norm_num [triageReport, triagedWith, overrideInputValid,
        overrideStored])).1⟩

/-- Counterexample to claim C6 as stated: the triage request with the
non-integer impact and urgency 5/2 is accepted (the handler checks only
`typeof x !== "number" || x < 1 || x > 5`), stores 5/2 and computes
priority MEDIUM, while the claim requires a validation failure with no
field modified. -/
theorem claim6_counterexample :
    triageReport sampleReport (some (5 / 2)) (some (5 / 2)) .undef none 1 =
      .ok (triagedWith sampleReport (5 / 2) (5 / 2) none none 1) ∧
    computePriority (5 / 2) (5 / 2) = .MEDIUM ∧
    ((5 : ℚ) / 2).den = 2 := by
  refine ⟨?_, ?_, ?_⟩
  · norm_num [triageReport, triagedWith, overrideInputValid,
      overrideStored, computePriority]
  · norm_num [computePriority]
  · norm_num [Rat.den]

/-- C6 (amended): a triage request fails with a 400 validation error and
leaves the report unmodified whenever impact or urgency is absent, not a
number, or outside [1,5]; any numeric values in [1,5] (integer or not)
pass validation, and with a valid override field the triage data is
stored. -/
theorem claim6_amended_triage_validation (report : Report)
    (impact urgency : Option ℚ) (ov : OverrideInput)
    (userId : Option String) (now : Nat) :
    ((¬ ∃ x, impact = some x ∧ 1 ≤ x ∧ x ≤ 5) →
      (∃ e, triageReport report impact urgency ov userId now =
          .error e ∧ e.code = 400) ∧
      persistedReport report
        (triageReport report impact urgency ov userId now) = report) ∧
    ((¬ ∃ x, urgency = some x ∧ 1 ≤ x ∧ x ≤ 5) →
      (∃ e, triageReport report impact urgency ov userId now =
          .error e ∧ e.code = 400) ∧
      persistedReport report
        (triageReport report impact urgency ov userId now) = report) ∧
    (∀ i u, impact = some i → 1 ≤ i → i ≤ 5 → urgency = some u →
      1 ≤ u → u ≤ 5 → overrideInputValid ov = true →
      triageReport report impact urgency ov userId now =
        .ok (triagedWith report i u (overrideStored ov) userId now)) := by
  refine ⟨?_, ?_, ?_⟩
  · intro hbad
    have herr : ∃ e, triageReport report impact urgency ov userId now =
        .error e ∧ e.code = 400 := by
      rcases impact with _ | i
      · exact ⟨_, rfl, rfl⟩
      · have hi : i < 1 ∨ 5 < i := by
          by_contra hcon
          push_neg at hcon
          exact hbad ⟨i, rfl, hcon.1, hcon.2⟩
        refine ⟨⟨400, "Impacto invalido"⟩, ?_, rfl⟩
        simp only [triageReport]
        rw [if_pos hi]
    obtain ⟨e, he, hcode⟩ := herr
    exact ⟨⟨e, he, hcode⟩, by rw [he]; rfl⟩
  · intro hbad
    have herr : ∃ e, triageReport report impact urgency ov userId now =
        .error e ∧ e.code = 400 := by
      rcases impact with _ | i
      · exact ⟨_, rfl, rfl⟩
      · by_cases hi : i < 1 ∨ 5 < i
        · refine ⟨⟨400, "Impacto invalido"⟩, ?_, rfl⟩
          simp only [triageReport]
          rw [if_pos hi]
        · rcases urgency with _ | u
          · refine ⟨⟨400, "Urgencia invalida"⟩, ?_, rfl⟩
            simp only [triageReport]
            rw [if_neg hi]
          · have hu : u < 1 ∨ 5 < u := by
              by_contra hcon
              push_neg at hcon
              exact hbad ⟨u, rfl, hcon.1, hcon.2⟩
            refine ⟨⟨400, "Urgencia invalida"⟩, ?_, rfl⟩
            simp only [triageReport]
            rw [if_neg hi, if_pos hu]
    obtain ⟨e, he, hcode⟩ := herr
    exact ⟨⟨e, he, hcode⟩, by rw [he]; rfl⟩
  · intro i u himp hi1 hi5 hurg hu1 hu5 hov
    subst himp
    subst hurg
    simp only [triageReport, triagedWith]
    rw [if_neg (by push_neg; exact ⟨hi1, hi5⟩),
      if_neg (show ¬(u < 1 ∨ 5 < u) by push_neg; exact ⟨hu1, hu5⟩)]
    simp [hov]

/-- Witness instantiating the amended claim C6: an absent impact is
rejected with a 400 error and leaves the report unchanged, and the
in-range request (2,3) is stored. -/
theorem claim6_amended_witness :
    ((∃ e, triageReport sampleReport none (some 3) .undef none 1 =
        .error e ∧ e.code = 400) ∧
      persistedReport sampleReport
        (triageReport sampleReport none (some 3) .undef none 1) =
        sampleReport) ∧
    triageReport sampleReport (some 2) (some 3) .undef none 1 =
      .ok (triagedWith sampleReport 2 3 none none 1) :=
  ⟨(claim6_amended_triage_validation sampleReport none (some 3) .undef
      none 1).1 (by simp),
    (claim6_amended_triage_validation sampleReport (some 2) (some 3)
      .undef none 1).2.2 2 3 rfl (by norm_num) (by norm_num) rfl
      (by norm_num) (by norm_num) rfl⟩

/-- Counterexample to claim C7 as stated: the assignee lookup checks only
existence and `isActive`, never the role, so assigning to an existing,
active account whose role is CITIZEN (not a staff role) succeeds, while
the claim requires every non-staff assignee to be rejected. -/
theorem claim7_counterexample :
    citizenUsers "cit1" =
      some { email := "cit@example.com", role := "CITIZEN",
             isActive := true } ∧
    assignReport sampleReport (.str "cit1") citizenUsers
      (fun _ => true) (some "admin1") 5 =
      .ok (assignmentSet sampleReport (some "cit1") (some 5)
            (some "admin1")) := by
  constructor
  · rfl
  · rfl

/-- C7 (amended): a non-null, non-empty assigneeId that passes the
ObjectId format check is accepted exactly when it names an existing
account with `isActive` true (the role is not checked); on any lookup
failure — unknown id or deactivated account — the call fails with a 400
validation error and `assignedTo`, `assignedAt` and `assignedBy` are
unchanged. -/
theorem claim7_amended_assignee_validation (report : Report) (s : String)
    (users : String → Option UserRec) (validId : String → Bool)
    (userId : Option String) (now : Nat)
    (hs : s ≠ "") (hv : validId s = true) :
    (users s = none →
      assignReport report (.str s) users validId userId now =
        .error ⟨400, "Usuario no valido"⟩ ∧
      persistedReport report
        (assignReport report (.str s) users validId userId now) =
        report) ∧
    (∀ u, users s = some u → u.isActive = false →
      assignReport report (.str s) users validId userId now =
        .error ⟨400, "Usuario no valido"⟩ ∧
      persistedReport report
        (assignReport report (.str s) users validId userId now) =
        report) ∧
    (∀ u, users s = some u → u.isActive = true →
      assignReport report (.str s) users validId userId now =
        .ok (assignmentSet report (some s) (some now) userId)) := by
  have hcond : ¬(s ≠ "" ∧ validId s = false) := by simp [hv]
  refine ⟨?_, ?_, ?_⟩
  · intro hu
    have herr : assignReport report (.str s) users validId userId now =
        .error ⟨400, "Usuario no valido"⟩ := by
      simp only [assignReport]
      rw [if_neg hcond, if_neg hs]
      simp only [hu]
    exact ⟨herr, by rw [herr]; rfl⟩
  · intro u hu hact
    have herr : assignReport report (.str s) users validId userId now =
        .error ⟨400, "Usuario no valido"⟩ := by
      simp only [assignReport]
      rw [if_neg hcond, if_neg hs]
      simp only [hu]
      rw [if_pos hact]
    exact ⟨herr, by rw [herr]; rfl⟩
  · intro u hu hact
    simp only [assignReport, assignmentSet]
    rw [if_neg hcond, if_neg hs]
    simp only [hu]
    rw [if_neg (by simp [hact])]

/-- Witness instantiating the amended claim C7: assigning to a
deactivated account fails with a validation error and leaves the
assignment fields unchanged. -/
theorem claim7_amended_witness :
    assignReport sampleReport (.str "old1") inactiveUsers
      (fun _ => true) (some "sup1") 9 =
      .error ⟨400, "Usuario no valido"⟩ ∧
    persistedReport sampleReport
      (assignReport sampleReport (.str "old1") inactiveUsers
        (fun _ => true) (some "sup1") 9) = sampleReport :=
  (claim7_amended_assignee_validation sampleReport "old1" inactiveUsers
      (fun _ => true) (some "sup1") 9 (by decide) rfl).2.1
    { email := "old@example.com", role := "OPERATOR", isActive := false }
    rfl rfl

/-- Saving a submitted survey keeps it the first match for its token. -/
theorem find?_saveSubmittedSurvey (l : List Survey) (token : String)
    (x : ℚ) (c : Option String) (n : Nat) (s : Survey)
    (h : l.find? (fun t => t.token == token) = some s) :
    (saveSubmittedSurvey l token x c n).find?
      (fun t => t.token == token) = some (submittedVersion s x c n) := by
  induction l with
  | nil => simp at h
  | cons a rest ih =>
    rw [saveSubmittedSurvey]
    by_cases ha : (a.token == token) = true
    · simp only [List.find?_cons, ha] at h
      cases h
      rw [if_pos ha]
      simp [List.find?_cons, submittedVersion, ha]
    · have ha' : (a.token == token) = false := by simpa using ha
      simp only [List.find?_cons, ha'] at h
      rw [if_neg ha]
      simp only [List.find?_cons, ha']
      exact ih h

/-- Inversion of a successful `submitSurvey` call: all validations passed,
the token was found unsubmitted, and the saved collection is returned. -/
theorem submitSurvey_ok_inv (surveys : List Survey) (token : String)
    (rating : Option ℚ) (comment : Option String) (now : Nat)
    (l' : List Survey)
    (h : submitSurvey surveys token rating comment now = .ok l') :
    ¬ (jsTrim token).length < 10 ∧
    ∃ x, rating = some x ∧ ¬(x < 1 ∨ 5 < x) ∧
      commentTooLong comment = false ∧
      ∃ sv, surveys.find? (fun t => t.token == token) = some sv ∧
        sv.submittedAt.isSome = false ∧
        l' = saveSubmittedSurvey surveys token x comment now := by
  by_cases htok : (jsTrim token).length < 10
  · simp only [submitSurvey] at h
    rw [if_pos htok] at h
    simp at h
  · rcases rating with _ | x
    · simp only [submitSurvey] at h
      rw [if_neg htok] at h
      simp at h
    · simp only [submitSurvey] at h
      rw [if_neg htok] at h
      by_cases hx : x < 1 ∨ 5 < x
      · rw [if_pos hx] at h
        simp at h
      · rw [if_neg hx] at h
        by_cases hc : commentTooLong comment = true
        · rw [if_pos hc] at h
          simp at h
        · rw [if_neg hc] at h
          cases hf : surveys.find? (fun t => t.token == token) with
          | none =>
            simp only [hf] at h
            simp at h
          | some sv =>
            simp only [hf] at h
            by_cases hsub : sv.submittedAt.isSome = true
            · rw [if_pos hsub] at h
              simp at h
            · rw [if_neg hsub] at h
              simp only [Except.ok.injEq] at h
              exact ⟨htok, x, rfl, hx, by simpa using hc, sv, rfl,
                by simpa using hsub, h.symm⟩

/-- Counterexample to claim C8 as stated: after the one successful
submission, a later call on the same token whose rating is invalid fails
with the 400 validation error (input validation runs before the token is
looked up), not with the 409 Conflict the claim requires of every later
call. -/
theorem claim8_counterexample :
    submitSurvey [freshSampleSurvey] "tok1234567890" (some 4) none 10 =
      .ok [submittedSampleSurvey] ∧
    submitSurvey [submittedSampleSurvey] "tok1234567890" (some 0) none
      20 = .error ⟨400, "rating invalido"⟩ ∧
    decide ((⟨400, "rating invalido"⟩ : ApiError) =
      ⟨409, "Encuesta ya respondida"⟩) = false := by
  refine ⟨?_, ?_, by decide⟩
  · rfl
  · rfl

/-- C8 (amended): `submitSurvey` validates its input first — a malformed
token, a rating outside [1,5] (or absent) or an over-long comment fail
with a 400 validation error regardless of the token's state; with valid
input, an unknown token fails NotFound, an already-submitted survey fails
Conflict leaving the collection untouched, and otherwise the rating,
trimmed comment and `submittedAt` are stored; consequently each token
admits at most one successful submission — after a success, every later
call with valid input on the same token fails with Conflict. -/
theorem claim8_amended_submit_once (surveys : List Survey)
    (token : String) (rating : Option ℚ) (comment : Option String)
    (now : Nat) :
    ((jsTrim token).length < 10 →
      submitSurvey surveys token rating comment now =
        .error ⟨400, "token invalido"⟩) ∧
    (¬ (jsTrim token).length < 10 →
      (¬ ∃ x, rating = some x ∧ 1 ≤ x ∧ x ≤ 5) →
      submitSurvey surveys token rating comment now =
        .error ⟨400, "rating invalido"⟩) ∧
    (∀ x, ¬ (jsTrim token).length < 10 → rating = some x → 1 ≤ x →
      x ≤ 5 → commentTooLong comment = true →
      submitSurvey surveys token rating comment now =
        .error ⟨400, "Comentario demasiado largo"⟩) ∧
    (∀ x, ¬ (jsTrim token).length < 10 → rating = some x → 1 ≤ x →
      x ≤ 5 → commentTooLong comment = false →
      surveys.find? (fun sv => sv.token == token) = none →
      submitSurvey surveys token rating comment now =
        .error ⟨404, "Encuesta no encontrada"⟩) ∧
    (∀ x sv, ¬ (jsTrim token).length < 10 → rating = some x → 1 ≤ x →
      x ≤ 5 → commentTooLong comment = false →
      surveys.find? (fun t => t.token == token) = some sv →
      sv.submittedAt.isSome = true →
      submitSurvey surveys token rating comment now =
        .error ⟨409, "Encuesta ya respondida"⟩ ∧
      persistedSurveys surveys
        (submitSurvey surveys token rating comment now) = surveys) ∧
    (∀ x sv, ¬ (jsTrim token).length < 10 → rating = some x → 1 ≤ x →
      x ≤ 5 → commentTooLong comment = false →
      surveys.find? (fun t => t.token == token) = some sv →
      sv.submittedAt = none →
      submitSurvey surveys token rating comment now =
        .ok (saveSubmittedSurvey surveys token x comment now)) ∧
    (∀ l', submitSurvey surveys token rating comment now = .ok l' →
      ∀ rating2 x2 comment2 now2, rating2 = some x2 → 1 ≤ x2 → x2 ≤ 5 →
        commentTooLong comment2 = false →
        submitSurvey l' token rating2 comment2 now2 =
          .error ⟨409, "Encuesta ya respondida"⟩) := by
  refine ⟨?_, ?_, ?_, ?_, ?_, ?_, ?_⟩
  · intro htok
    simp only [submitSurvey]
    rw [if_pos htok]
  · intro htok hbad
    rcases rating with _ | x
    · simp only [submitSurvey]
      rw [if_neg htok]
    · have hx : x < 1 ∨ 5 < x := by
        by_contra hcon
        push_neg at hcon
        exact hbad ⟨x, rfl, hcon.1, hcon.2⟩
      simp only [submitSurvey]
      rw [if_neg htok, if_pos hx]
  · intro x htok hr h1 h5 hc
    subst hr
    simp only [submitSurvey]
    rw [if_neg htok,
      if_neg (show ¬(x < 1 ∨ 5 < x) by push_neg; exact ⟨h1, h5⟩),
      if_pos hc]
  · intro x htok hr h1 h5 hc hf
    subst hr
    simp only [submitSurvey]
    rw [if_neg htok,
      if_neg (show ¬(x < 1 ∨ 5 < x) by push_neg; exact ⟨h1, h5⟩),
      if_neg (by simp [hc])]
    simp only [hf]
  · intro x sv htok hr h1 h5 hc hf hsub
    subst hr
    have herr : submitSurvey surveys token (some x) comment now =
        .error ⟨409, "Encuesta ya respondida"⟩ := by
      simp only [submitSurvey]
      rw [if_neg htok,
        if_neg (show ¬(x < 1 ∨ 5 < x) by push_neg; exact ⟨h1, h5⟩),
        if_neg (by simp [hc])]
      simp only [hf]
      rw [if_pos hsub]
    exact ⟨herr, by rw [herr]; rfl⟩
  · intro x sv htok hr h1 h5 hc hf hsub
    subst hr
    simp only [submitSurvey]
    rw [if_neg htok,
      if_neg (show ¬(x < 1 ∨ 5 < x) by push_neg; exact ⟨h1, h5⟩),
      if_neg (by simp [hc])]
    simp only [hf]
    rw [if_neg (by simp [hsub])]
  · intro l' hok rating2 x2 comment2 now2 hr2 h12 h52 hc2
    obtain ⟨htok, x, hrx, hx, hc, sv, hf, hsub, hl⟩ :=
      submitSurvey_ok_inv surveys token rating comment now l' hok
    subst hl
    subst hr2
    have hfind := find?_saveSubmittedSurvey surveys token x comment now
      sv hf
    simp only [submitSurvey]
    rw [if_neg htok,
      if_neg (show ¬(x2 < 1 ∨ 5 < x2) by push_neg; exact ⟨h12, h52⟩),
      if_neg (by simp [hc2])]
    simp only [hfind]
    rw [if_pos (show (submittedVersion sv x comment now).submittedAt.isSome
      = true from rfl)]

/-- Witness instantiating the amended claim C8: a second well-formed
submission on an already-submitted token fails with Conflict and leaves
the stored collection (rating and comment included) untouched. -/
theorem claim8_amended_witness :
    submitSurvey [submittedSampleSurvey] "tok1234567890" (some 4) none
      20 = .error ⟨409, "Encuesta ya respondida"⟩ ∧
    persistedSurveys [submittedSampleSurvey]
      (submitSurvey [submittedSampleSurvey] "tok1234567890" (some 4)
        none 20) = [submittedSampleSurvey] :=
  (claim8_amended_submit_once [submittedSampleSurvey] "tok1234567890"
      (some 4) none 20).2.2.2.2.1 4 submittedSampleSurvey (by decide)
    rfl (by norm_num) (by norm_num) rfl (by decide) rfl

/-- Counterexample to claim C9 as stated: with a resolvable reporter email
and a store holding only a submitted survey for the report, no existing
unsubmitted survey exists, yet the dispatcher creates nothing and sends no
invitation, while the claim requires a fresh survey and an invitation in
this situation. -/
theorem claim9_counterexample :
    [submittedSampleSurvey].find?
      (fun sv => sv.reportId == "rep1" && sv.submittedAt.isNone) =
      none ∧
    ensureSurveyForReport [submittedSampleSurvey] (some "c@example.com")
      "rep1" "fresh0123456789" = ([submittedSampleSurvey], none) ∧
    sendSurveyInvitation [submittedSampleSurvey] (some "c@example.com")
      "rep1" "fresh0123456789" = ([submittedSampleSurvey], none) := by
  refine ⟨rfl, rfl, rfl⟩

/-- C9 (amended): the survey dispatcher runs only on a successful
transition whose target is CLOSED; with a resolvable reporter email it
creates a survey with the fresh token only when no survey record exists
at all for the report, reuses an existing unsubmitted survey without
creating a duplicate, does nothing when the existing survey was already
submitted, and never takes a report from at most one survey record to
more than one. -/
theorem claim9_amended_survey_dispatch :
    (∀ report surveys reporterEmail freshToken reportId status note
        userId now o,
      status ≠ ReportStatus.CLOSED →
      updateReportStatusWithSurvey report surveys reporterEmail
        freshToken reportId status note userId now = .ok o →
      o.surveys = surveys ∧ o.invitationEmail = none) ∧
    (∀ report surveys reporterEmail freshToken reportId note userId now
        o,
      updateReportStatusWithSurvey report surveys reporterEmail
        freshToken reportId .CLOSED note userId now = .ok o →
      (o.surveys, o.invitationEmail) =
        sendSurveyInvitation surveys reporterEmail reportId freshToken) ∧
    (∀ surveys email reportId freshToken,
      surveys.find? (fun sv => sv.reportId == reportId) = none →
      ensureSurveyForReport surveys (some email) reportId freshToken =
        (surveys ++ [newSurvey reportId freshToken email],
          some (newSurvey reportId freshToken email))) ∧
    (∀ surveys email reportId freshToken sv,
      surveys.find? (fun t => t.reportId == reportId) = some sv →
      sv.submittedAt = none →
      ensureSurveyForReport surveys (some email) reportId freshToken =
        (surveys, some sv)) ∧
    (∀ surveys email reportId freshToken sv,
      surveys.find? (fun t => t.reportId == reportId) = some sv →
      sv.submittedAt.isSome = true →
      ensureSurveyForReport surveys (some email) reportId freshToken =
        (surveys, none)) ∧
    (∀ surveys reporterEmail reportId freshToken rid,
      surveyCountFor rid surveys ≤ 1 →
      surveyCountFor rid
        (ensureSurveyForReport surveys reporterEmail reportId
          freshToken).1 ≤ 1) := by
  refine ⟨?_, ?_, ?_, ?_, ?_, ?_⟩
  · intro report surveys reporterEmail freshToken reportId status note
      userId now o hst h
    simp only [updateReportStatusWithSurvey] at h
    cases hu : updateReportStatus report status note userId now with
    | error e =>
      rw [hu] at h
      simp at h
    | ok r =>
      rw [hu] at h
      simp only [hst, reduceIte, Except.ok.injEq] at h
      subst h
      exact ⟨rfl, rfl⟩
  · intro report surveys reporterEmail freshToken reportId note userId
      now o h
    simp only [updateReportStatusWithSurvey] at h
    cases hu : updateReportStatus report .CLOSED note userId now with
    | error e =>
      rw [hu] at h
      simp at h
    | ok r =>
      rw [hu] at h
      simp only [reduceIte, Except.ok.injEq] at h
      subst h
      rfl
  · intro surveys email reportId freshToken hfind
    simp [ensureSurveyForReport, hfind, newSurvey]
  · intro surveys email reportId freshToken sv hfind hsub
    simp [ensureSurveyForReport, hfind, hsub]
  · intro surveys email reportId freshToken sv hfind hsub
    simp [ensureSurveyForReport, hfind, hsub]
  · intro surveys reporterEmail reportId freshToken rid h
    rcases reporterEmail with _ | email
    · simpa [ensureSurveyForReport] using h
    · cases hf : surveys.find? (fun sv => sv.reportId == reportId) with
      | some sv =>
        simp only [ensureSurveyForReport, hf]
        split <;> simpa using h
      | none =>
        simp only [ensureSurveyForReport, hf]
        unfold surveyCountFor at h ⊢
        rw [List.filter_append]
        by_cases hr : ((newSurvey reportId freshToken email).reportId ==
            rid) = true
        · have heq : reportId = rid := by simpa [newSurvey] using hr
          subst heq
          have hnil : surveys.filter
              (fun s => s.reportId == reportId) = [] := by
            rw [List.filter_eq_nil_iff]
            intro a ha
            exact List.find?_eq_none.mp hf a ha
          rw [hnil]
          simp [newSurvey]
        · have hone : ([newSurvey reportId freshToken email].filter
              (fun s => s.reportId == rid)) = [] := by
            simp [hr]
          rw [hone]
          simpa using h

/-- Witness instantiating the amended claim C9: an existing unsubmitted
survey is reused without a duplicate, and the one-record bound is
preserved when a survey is created in an empty store. -/
theorem claim9_witness :
    ensureSurveyForReport [freshSampleSurvey] (some "c@example.com")
      "rep1" "fresh0123456789" =
      ([freshSampleSurvey], some freshSampleSurvey) ∧
    surveyCountFor "rep1"
      (ensureSurveyForReport [] (some "c@example.com") "rep1"
        "fresh0123456789").1 ≤ 1 :=
  ⟨claim9_amended_survey_dispatch.2.2.2.1 [freshSampleSurvey]
      "c@example.com" "rep1" "fresh0123456789" freshSampleSurvey rfl rfl,
    claim9_amended_survey_dispatch.2.2.2.2.2 [] (some "c@example.com")
      "rep1" "fresh0123456789" "rep1" (by decide)⟩

end CivicTrack
